import Mathlib

/-!
Shallow embedding of the lazy-refresh resource-handle pattern of this
repository: `docker_cli_wrapper/volume.py` (classes `Volume`, `VolumeCLI`,
helper `to_list`) and `python_on_whales/components/network.py` (classes
`Network`, `NetworkCLI`).

Modelling conventions:
* Python `datetime` values are rationals (time in seconds on an absolute
  axis); a `timedelta` is the rational difference of two datetimes.
* Python's dynamic comparison between a `timedelta` and a `float` follows
  CPython semantics: ordering between those two types is undefined and
  raises `TypeError`.  This is captured by `py_le` on the tagged type
  `PyVal`.
* The subprocess layer (`utils.run`) and the JSON pipeline (`json.loads`,
  `pydantic parse_obj`) are oracles passed in as function arguments; each
  operation returns a `TraceResult` recording the exact list of commands
  handed to the subprocess layer, together with the outcome (a value or a
  raised error).
* Object mutation is state passing: a method of `Volume` takes the handle
  and returns the new handle inside the outcome.  `Volume.after` recovers
  the state the caller continues with (the old one when the call raised,
  matching Python exception semantics where the raise aborts the method
  before further assignment).
-/

/-- Error taxonomy: the spec's error kinds (InvocationError, ParseError,
TypeError, UnavailableError) plus the built-in Python errors the embedded
code can raise (`AttributeError` from `None.attr`, `IndexError` from
`[...][0]` on an empty list). -/
inductive PyError
  | typeError
  | attributeError
  | indexError
  | invocationError
  | parseError
  | unavailableError
  deriving DecidableEq, Repr

/-- Dynamically-typed values as far as `Volume._needs_reload` needs them:
a Python `float` or a Python `timedelta`, each carrying a rational. -/
inductive PyVal
  | floatV (q : ℚ)
  | timedeltaV (q : ℚ)
  deriving DecidableEq, Repr

/-- CPython `<=` between the values above: ordering is defined between two
floats and between two timedeltas; between a timedelta and a float both
reflected comparison methods return NotImplemented and the interpreter
raises `TypeError`. -/
def py_le : PyVal → PyVal → Except PyError Bool
  | PyVal.floatV a, PyVal.floatV b => Except.ok (a ≤ b)
  | PyVal.timedeltaV a, PyVal.timedeltaV b => Except.ok (a ≤ b)
  | _, _ => Except.error PyError.typeError

/-- `datetime.min`, the value `Volume.__init__` stores in
`_last_refreshed_time`; placed at the origin of the rational time axis. -/
def datetime_min : ℚ := 0

/-- A command line handed to the subprocess layer. -/
abbrev Cmd := List String

/-- Outcome of one operation: the commands it passed to the subprocess
layer, in call order, and its result (a value, or the error it raised). -/
structure TraceResult (α : Type) where
  calls : List Cmd
  result : Except PyError α
  deriving Repr

/-- `VolumeInspectResult` (pydantic model), field for field; `datetime`
is a rational, `Path` a string. -/
structure VolumeInspectResult where
  CreatedAt : ℚ
  Driver : String
  Labels : List (String × String)
  Mountpoint : String
  Name : String
  Options : Option String
  Scope : String
  deriving DecidableEq, Repr

/-- State of a `Volume` handle: `_docker_cmd`, `name`,
`_volume_inspect_result` and `_last_refreshed_time`. -/
structure Volume where
  docker_cmd : List String
  name : String
  volume_inspect_result : Option VolumeInspectResult
  last_refreshed_time : ℚ
  deriving DecidableEq, Repr

/-- `Volume.__init__`: stores the command prefix and name, no inspection
result yet, `_last_refreshed_time = datetime.min`. -/
def Volume.init (docker_cmd : List String) (name : String) : Volume :=
  { docker_cmd := docker_cmd
    name := name
    volume_inspect_result := none
    last_refreshed_time := datetime_min }

/-- `Volume._needs_reload`: evaluates
`(datetime.now() - self._last_refreshed_time) <= 0.2`.  The subtraction of
two datetimes is a timedelta; the right operand is the float literal
`0.2`; the comparison goes through `py_le`. -/
def Volume._needs_reload (now : ℚ) (v : Volume) : Except PyError Bool :=
  py_le (PyVal.timedeltaV (now - v.last_refreshed_time)) (PyVal.floatV (2 / 10))

/-- `Volume.reload`: runs `docker_cmd + ["volume", "inspect", name]`,
parses the output with `json.loads` (oracle `loads`, producing the list of
JSON array elements), takes element `[0]` (raising `IndexError` when the
array is empty), feeds it to `VolumeInspectResult.parse_obj` (oracle
`parse_obj`) and, only if all of that succeeded, assigns the parsed result
to `_volume_inspect_result`.  No other field is assigned; in particular
`_last_refreshed_time` is not written. -/
def Volume.reload {J : Type} (env : Cmd → Except PyError String)
    (loads : String → Except PyError (List J))
    (parse_obj : J → Except PyError VolumeInspectResult)
    (v : Volume) : TraceResult Volume :=
  let cmd := v.docker_cmd ++ ["volume", "inspect", v.name]
  { calls := [cmd]
    result :=
      match env cmd with
      | Except.error e => Except.error e
      | Except.ok json_str =>
        match loads json_str with
        | Except.error e => Except.error e
        | Except.ok [] => Except.error PyError.indexError
        | Except.ok (json_obj :: _) =>
          match parse_obj json_obj with
          | Except.error e => Except.error e
          | Except.ok r =>
            Except.ok { v with volume_inspect_result := some r } }

/-- State the caller continues with after a method call on a handle: the
returned state on success, the unchanged handle when the call raised
(Python exceptions abort the method before any later assignment). -/
def Volume.after (v : Volume) (r : TraceResult Volume) : Volume :=
  match r.result with
  | Except.ok v2 => v2
  | Except.error _ => v

/-- `Volume._reload_if_necessary`: calls `_needs_reload` and reloads when
it returns true.  An error raised by `_needs_reload` propagates before any
subprocess call. -/
def Volume._reload_if_necessary {J : Type} (env : Cmd → Except PyError String)
    (loads : String → Except PyError (List J))
    (parse_obj : J → Except PyError VolumeInspectResult)
    (now : ℚ) (v : Volume) : TraceResult Volume :=
  match v._needs_reload now with
  | Except.error e => { calls := [], result := Except.error e }
  | Except.ok true => v.reload env loads parse_obj
  | Except.ok false => { calls := [], result := Except.ok v }

/-- `Volume.created_at` property: `_reload_if_necessary()` then
`self._volume_inspect_result.CreatedAt`; reading the attribute on `None`
raises `AttributeError`. -/
def Volume.created_at {J : Type} (env : Cmd → Except PyError String)
    (loads : String → Except PyError (List J))
    (parse_obj : J → Except PyError VolumeInspectResult)
    (now : ℚ) (v : Volume) : TraceResult ℚ :=
  let r := v._reload_if_necessary env loads parse_obj now
  match r.result with
  | Except.error e => { calls := r.calls, result := Except.error e }
  | Except.ok v2 =>
    match v2.volume_inspect_result with
    | none => { calls := r.calls, result := Except.error PyError.attributeError }
    | some res => { calls := r.calls, result := Except.ok res.CreatedAt }

/-- `Volume.driver` property: `_reload_if_necessary()` then
`self._volume_inspect_result.Driver`. -/
def Volume.driver {J : Type} (env : Cmd → Except PyError String)
    (loads : String → Except PyError (List J))
    (parse_obj : J → Except PyError VolumeInspectResult)
    (now : ℚ) (v : Volume) : TraceResult String :=
  let r := v._reload_if_necessary env loads parse_obj now
  match r.result with
  | Except.error e => { calls := r.calls, result := Except.error e }
  | Except.ok v2 =>
    match v2.volume_inspect_result with
    | none => { calls := r.calls, result := Except.error PyError.attributeError }
    | some res => { calls := r.calls, result := Except.ok res.Driver }

/-- A Python value that is either a bare element or a `list` of elements;
`isinstance(x, list)` distinguishes the two constructors. -/
inductive PyListOr (α : Type)
  | single (a : α)
  | list (l : List α)
  deriving DecidableEq, Repr

/-- `to_list` from `docker_cli_wrapper/volume.py`: a list is returned
unchanged, anything else is wrapped into a singleton list. -/
def to_list {α : Type} : PyListOr α → List α
  | PyListOr.single a => [a]
  | PyListOr.list l => l

/-- `VolumeArg = Union[Volume, str]`. -/
inductive VolumeArg
  | vol (v : Volume)
  | str (s : String)
  deriving DecidableEq, Repr

/-- Python `str(v)` on a `VolumeArg`: `Volume.__str__` returns the name,
a string is itself. -/
def VolumeArg.toStr : VolumeArg → String
  | VolumeArg.vol v => v.name
  | VolumeArg.str s => s

/-- `VolumeCLI._make_cli_cmd`: `docker_cmd + ["volume"]`. -/
def VolumeCLI.make_cli_cmd (docker_cmd : List String) : Cmd :=
  docker_cmd ++ ["volume"]

/-- Command built by `VolumeCLI.create`: the base command, the optional
positional name, the optional `--driver` flag, then one `--label key=value`
pair per labels entry and one `--opt key=value` pair per options entry,
appended by the two `for` loops in source order. -/
def VolumeCLI.create_cmd (docker_cmd : List String)
    (volume_name driver : Option String)
    (labels options : List (String × String)) : Cmd :=
  let c := VolumeCLI.make_cli_cmd docker_cmd ++ ["create"]
  let c := c ++ (match volume_name with
    | some n => [n]
    | none => [])
  let c := c ++ (match driver with
    | some d => ["--driver", d]
    | none => [])
  let c := labels.foldl (fun acc kv => acc ++ ["--label", kv.1 ++ "=" ++ kv.2]) c
  options.foldl (fun acc kv => acc ++ ["--opt", kv.1 ++ "=" ++ kv.2]) c

/-- `VolumeCLI.create`: builds the command, runs it once, and wraps the
subprocess output (the created volume's name) into a fresh handle. -/
def VolumeCLI.create (env : Cmd → Except PyError String)
    (docker_cmd : List String) (volume_name driver : Option String)
    (labels options : List (String × String)) : TraceResult Volume :=
  let cmd := VolumeCLI.create_cmd docker_cmd volume_name driver labels options
  { calls := [cmd]
    result :=
      match env cmd with
      | Except.error e => Except.error e
      | Except.ok out => Except.ok (Volume.init docker_cmd out) }

/-- Command built by `VolumeCLI.remove`: the base command plus `str(v)`
for each element of `to_list(x)`, appended in order by the `for` loop. -/
def VolumeCLI.remove_cmd (docker_cmd : List String)
    (x : PyListOr VolumeArg) : Cmd :=
  (to_list x).foldl (fun acc v => acc ++ [v.toStr])
    (VolumeCLI.make_cli_cmd docker_cmd ++ ["remove"])

/-- `VolumeCLI.remove`: builds the command, runs it once, splits the
output on newlines. -/
def VolumeCLI.remove (env : Cmd → Except PyError String)
    (docker_cmd : List String) (x : PyListOr VolumeArg) :
    TraceResult (List String) :=
  let cmd := VolumeCLI.remove_cmd docker_cmd x
  { calls := [cmd]
    result :=
      match env cmd with
      | Except.error e => Except.error e
      | Except.ok out => Except.ok (out.splitOn "\n") }

/-- `ClientConfig` as far as `network.py` uses it: it supplies the
command prefix `docker_cmd` for the external engine. -/
structure ClientConfig where
  docker_cmd : List String
  deriving DecidableEq, Repr

/-- A `Network` handle as constructed by `network.py`: client config,
reference, and the `is_immutable_id` flag passed to the
`ReloadableObjectFromJson` constructor. -/
structure Network where
  client_config : ClientConfig
  reference : String
  is_immutable_id : Bool
  deriving DecidableEq, Repr

/-- Return type of the overloaded `NetworkCLI.inspect`: one handle for a
single reference, a list of handles for a list of references. -/
inductive NetworkOrList
  | one (n : Network)
  | many (l : List Network)
  deriving DecidableEq, Repr

/-- `NetworkCLI.inspect`: `isinstance(x, str)` yields one handle built
from the reference; otherwise a list comprehension builds one handle per
reference in input order.  The body contains no `run` call. -/
def NetworkCLI.inspect (cfg : ClientConfig) : PyListOr String → NetworkOrList
  | PyListOr.single x => NetworkOrList.one (Network.mk cfg x false)
  | PyListOr.list xs =>
    NetworkOrList.many (xs.map fun reference => Network.mk cfg reference false)

/-- `NetworkCLI.inspect` with its subprocess trace: the method performs
no subprocess invocation, so the call list is empty. -/
def NetworkCLI.inspectT (cfg : ClientConfig) (x : PyListOr String) :
    TraceResult NetworkOrList :=
  { calls := [], result := Except.ok (NetworkCLI.inspect cfg x) }

/-- Modelled from the spec: `Command.add_flag` lives in
`python_on_whales/utils.py`, which is not under `src/`; per the spec,
booleans become presence flags (the flag is appended when the boolean is
true, nothing otherwise). -/
def add_flag (cmd : Cmd) (flag : String) (b : Bool) : Cmd :=
  if b then cmd ++ [flag] else cmd

/-- Modelled from the spec: `Command.add_simple_arg` lives in
`python_on_whales/utils.py`, which is not under `src/`; an optional value
contributes the flag followed by the value when present, nothing when
absent. -/
def add_simple_arg (cmd : Cmd) (flag : String) : Option String → Cmd
  | some v => cmd ++ [flag, v]
  | none => cmd

/-- Modelled from the spec: `Command.add_args_list` lives in
`python_on_whales/utils.py`, which is not under `src/`; per the spec,
sequences become repeated flags: the flag is repeated before each element
of the list. -/
def add_args_list (cmd : Cmd) (flag : String) (args : List String) : Cmd :=
  args.foldl (fun acc a => acc ++ [flag, a]) cmd

/-- Dynamically-typed argument of `NetworkCLI.prune` and
`NetworkCLI.list`: the declared filters mapping, or — to exercise the
spec's claim that prune accepts references — a single reference or a list
of references. -/
inductive DictOrRef
  | dict (d : List (String × String))
  | ref (r : String)
  | refList (l : List String)
  deriving DecidableEq, Repr

/-- Modelled from the spec: `format_dict_for_cli` lives in
`python_on_whales/utils.py`, which is not under `src/`; per the spec a
mapping becomes the repeated `key=value` strings, and a value that is not
a mapping is an eagerly detected argument-type error (spec error kind
TypeError). -/
def format_dict_for_cli : DictOrRef → Except PyError (List String)
  | DictOrRef.dict d => Except.ok (d.map fun kv => kv.1 ++ "=" ++ kv.2)
  | DictOrRef.ref _ => Except.error PyError.typeError
  | DictOrRef.refList _ => Except.error PyError.typeError

/-- Python `str.splitlines` on engine output: split on newlines, with a
trailing newline not producing a trailing empty line. -/
def splitlines (s : String) : List String :=
  let parts := s.splitOn "\n"
  match parts.getLast? with
  | some "" => parts.dropLast
  | _ => parts

/-- `NetworkCLI.create`: builds
`docker_cmd + ["network", "create"]` plus `--attachable`, `--driver`,
`--gateway`, `--subnet`, repeated `--opt`, then the positional name; runs
it once and wraps the output id into an immutable-id handle. -/
def NetworkCLI.create (env : Cmd → Except PyError String)
    (cfg : ClientConfig) (name : String) (attachable : Bool)
    (driver gateway subnet : Option String) (options : List String) :
    TraceResult Network :=
  let full_cmd := cfg.docker_cmd ++ ["network", "create"]
  let full_cmd := add_flag full_cmd "--attachable" attachable
  let full_cmd := add_simple_arg full_cmd "--driver" driver
  let full_cmd := add_simple_arg full_cmd "--gateway" gateway
  let full_cmd := add_simple_arg full_cmd "--subnet" subnet
  let full_cmd := add_args_list full_cmd "--opt" options
  let full_cmd := full_cmd ++ [name]
  { calls := [full_cmd]
    result :=
      match env full_cmd with
      | Except.error e => Except.error e
      | Except.ok out => Except.ok (Network.mk cfg out true) }

/-- `NetworkCLI.list`: builds
`docker_cmd + ["network", "list", "--no-trunc", "--quiet"]` plus repeated
`--filter key=value`, runs it once, and maps each output line to an
immutable-id handle. -/
def NetworkCLI.list (env : Cmd → Except PyError String)
    (cfg : ClientConfig) (filters : DictOrRef) : TraceResult (List Network) :=
  match format_dict_for_cli filters with
  | Except.error e => { calls := [], result := Except.error e }
  | Except.ok fs =>
    let full_cmd :=
      add_args_list (cfg.docker_cmd ++ ["network", "list", "--no-trunc", "--quiet"])
        "--filter" fs
    { calls := [full_cmd]
      result :=
        match env full_cmd with
        | Except.error e => Except.error e
        | Except.ok out =>
          Except.ok ((splitlines out).map fun i => Network.mk cfg i true) }

/-- `NetworkCLI.prune`: builds
`docker_cmd + ["network", "prune", "--force"]` plus repeated
`--filter key=value` from the filters mapping, and runs it once.  Its
argument is the filters mapping; there is no reference argument and no
`to_list` normalisation. -/
def NetworkCLI.prune (env : Cmd → Except PyError String)
    (cfg : ClientConfig) (filters : DictOrRef) : TraceResult Unit :=
  match format_dict_for_cli filters with
  | Except.error e => { calls := [], result := Except.error e }
  | Except.ok fs =>
    let full_cmd :=
      add_args_list (cfg.docker_cmd ++ ["network", "prune", "--force"]) "--filter" fs
    { calls := [full_cmd]
      result :=
        match env full_cmd with
        | Except.error e => Except.error e
        | Except.ok _ => Except.ok () }

/-- `NetworkCLI.remove`: builds `docker_cmd + ["network", "remove"]`,
appends each element of `to_list(networks)` in order, and runs it once
(references given as their string form). -/
def NetworkCLI.remove (env : Cmd → Except PyError String)
    (cfg : ClientConfig) (networks : PyListOr String) : TraceResult Unit :=
  let full_cmd :=
    (to_list networks).foldl (fun acc n => acc ++ [n])
      (cfg.docker_cmd ++ ["network", "remove"])
  { calls := [full_cmd]
    result :=
      match env full_cmd with
      | Except.error e => Except.error e
      | Except.ok _ => Except.ok () }

/-! ### Concrete instances used to evaluate the embedding -/

/-- A fully parsed inspection result, as `parse_obj` would produce it. -/
def sample_result : VolumeInspectResult :=
  { CreatedAt := 0
    Driver := "local"
    Labels := []
    Mountpoint := "/var/lib/docker/volumes/myvol/_data"
    Name := "myvol"
    Options := none
    Scope := "local" }

/-- A freshly constructed handle, never refreshed. -/
def v_fresh : Volume := Volume.init ["docker"] "myvol"

/-- A handle whose cache holds a previously parsed snapshot. -/
def v_loaded : Volume :=
  { v_fresh with volume_inspect_result := some sample_result }

/-- A subprocess oracle that succeeds with a one-element JSON array. -/
def env_ok : Cmd → Except PyError String := fun _ => Except.ok "[{}]"

/-- A subprocess oracle whose invocation fails. -/
def env_fail : Cmd → Except PyError String :=
  fun _ => Except.error PyError.invocationError

/-- A `json.loads` oracle returning a one-element array (elements are
abstract tokens, here numbers). -/
def loads_one : String → Except PyError (List Nat) := fun _ => Except.ok [0]

/-- A `parse_obj` oracle that succeeds with `sample_result`. -/
def parse_ok : Nat → Except PyError VolumeInspectResult :=
  fun _ => Except.ok sample_result

/-- The reload of a fresh handle under the succeeding oracles. -/
def reload_demo : TraceResult Volume := v_fresh.reload env_ok loads_one parse_ok

/-- The part of the volume create command before the label and option
flags: base command, optional positional name, optional driver flag. -/
def create_base (docker_cmd : List String)
    (volume_name driver : Option String) : Cmd :=
  VolumeCLI.make_cli_cmd docker_cmd ++ ["create"] ++
    (match volume_name with
      | some n => [n]
      | none => []) ++
    (match driver with
      | some d => ["--driver", d]
      | none => [])

/-- The `--label key=value` pairs contributed by the labels mapping. -/
def label_blocks (labels : List (String × String)) : List String :=
  (labels.map fun kv => ["--label", kv.1 ++ "=" ++ kv.2]).flatten

/-- The `--opt key=value` pairs contributed by the options mapping. -/
def opt_blocks (options : List (String × String)) : List String :=
  (options.map fun kv => ["--opt", kv.1 ++ "=" ++ kv.2]).flatten

/-! ### Helper lemmas -/

/-- A left fold that appends a block per element equals the start followed
by the concatenation of the blocks. -/
theorem foldl_append_blocks {α : Type} (g : α → List String) (l : List α) :
    ∀ acc : Cmd, l.foldl (fun a x => a ++ g x) acc = acc ++ (l.map g).flatten := by
  induction l with
  | nil => intro acc; simp
  | cons x xs ih => intro acc; simp [ih, List.append_assoc]

/-- Concatenating singleton blocks recovers the mapped list. -/
theorem join_map_singleton {α : Type} (f : α → String) (l : List α) :
    (l.map fun a => [f a]).flatten = l.map f := by
  induction l with
  | nil => rfl
  | cons x xs ih => simp [ih]

/-- A member of the list contributes its block as a consecutive segment of
the concatenation. -/
theorem mem_map_join_decomp {α : Type} (g : α → List String) (a : α) :
    ∀ l : List α, a ∈ l → ∃ u w, (l.map g).flatten = u ++ g a ++ w := by
  intro l
  induction l with
  | nil => intro h; cases h
  | cons x xs ih =>
    intro h
    rcases List.mem_cons.mp h with h1 | h2
    · exact ⟨[], (xs.map g).flatten, by simp [h1]⟩
    · rcases ih h2 with ⟨u, w, hw⟩
      exact ⟨g x ++ u, w, by simp [hw, List.append_assoc]⟩

/-- The volume create command decomposes as base, label pairs, option
pairs. -/
theorem create_cmd_eq (docker_cmd : List String)
    (volume_name driver : Option String)
    (labels options : List (String × String)) :
    VolumeCLI.create_cmd docker_cmd volume_name driver labels options =
      create_base docker_cmd volume_name driver ++ label_blocks labels ++
        opt_blocks options := by
  simp only [VolumeCLI.create_cmd, create_base, label_blocks, opt_blocks]
  rw [foldl_append_blocks, foldl_append_blocks]

/-! ### Claims -/

/-- C1: the claim states `needs_reload()` returns true iff
`(now - last_refreshed_time) > 0.2`.  Evaluated at the failing input
(handle last refreshed at 9/10, read at time 1, elapsed 1/10 ≤ 2/10, so
the claim requires the answer `false`), the code returns no boolean at
all: it compares the elapsed timedelta with the float literal `0.2`
(using `<=` rather than `>`), which raises TypeError. -/
theorem C1_needs_reload_not_the_claimed_predicate :
    Volume._needs_reload 1
        { v_fresh with last_refreshed_time := 9 / 10 } =
      Except.error PyError.typeError :=
  rfl

/-- C2: every attribute access (`created_at`, `driver`) evaluates
`_needs_reload`, whose comparison of a timedelta with the float `0.2`
raises TypeError; the access fails with TypeError and performs no
subprocess call, before any freshness decision or reload. -/
theorem C2_attribute_access_raises_type_error {J : Type}
    (env : Cmd → Except PyError String)
    (loads : String → Except PyError (List J))
    (parse_obj : J → Except PyError VolumeInspectResult)
    (now : ℚ) (v : Volume) :
    Volume.created_at env loads parse_obj now v =
      { calls := [], result := Except.error PyError.typeError } ∧
    Volume.driver env loads parse_obj now v =
      { calls := [], result := Except.error PyError.typeError } ∧
    Volume._needs_reload now v = Except.error PyError.typeError :=
  ⟨rfl, rfl, rfl⟩

/-- C3: the claim states `reload()` invokes inspect, parses the first
element of the JSON array, replaces the cache wholesale, and sets
`last_refreshed_time` to the current time.  On a concrete successful
reload the code does invoke inspect once, does store the parsed first
element wholesale — but leaves `last_refreshed_time` exactly where
`__init__` put it (`datetime.min`): the method never writes that field. -/
theorem C3_reload_does_not_stamp_time :
    reload_demo.calls = [["docker", "volume", "inspect", "myvol"]] ∧
    reload_demo.result =
      Except.ok { v_fresh with volume_inspect_result := some sample_result } ∧
    (v_fresh.after reload_demo).last_refreshed_time = datetime_min ∧
    (v_fresh.after reload_demo).last_refreshed_time =
      v_fresh.last_refreshed_time :=
  ⟨rfl, rfl, rfl, rfl⟩

/-- C4: after one `reload()`, attribute reads within the debounce window
(elapsed time at most 2/10 since the reload) trigger no subprocess call at
all — in particular never a second refresh invocation.  (This holds
because the debounce comparison raises TypeError before any call can be
made; no attribute read ever reaches the subprocess layer.) -/
theorem C4_no_second_refresh_within_window {J : Type}
    (env : Cmd → Except PyError String)
    (loads : String → Except PyError (List J))
    (parse_obj : J → Except PyError VolumeInspectResult)
    (v : Volume) (t now1 now2 : ℚ)
    (_h1 : now1 - t ≤ 2 / 10) (_h2 : now2 - t ≤ 2 / 10) :
    (Volume.created_at env loads parse_obj now1
        (v.after (v.reload env loads parse_obj))).calls = [] ∧
    (Volume.driver env loads parse_obj now1
        (v.after (v.reload env loads parse_obj))).calls = [] ∧
    (Volume.created_at env loads parse_obj now2
        (v.after (v.reload env loads parse_obj))).calls = [] ∧
    (Volume.driver env loads parse_obj now2
        (v.after (v.reload env loads parse_obj))).calls = [] :=
  ⟨rfl, rfl, rfl, rfl⟩

/-- C4 witness: concrete reload at time 0, reads at times 1/10 and 3/20,
both within the debounce window; neither read makes a subprocess call. -/
theorem C4_no_second_refresh_within_window_witness :
    ((1 / 10 : ℚ) - 0 ≤ 2 / 10) ∧ ((3 / 20 : ℚ) - 0 ≤ 2 / 10) ∧
    (Volume.created_at env_ok loads_one parse_ok (1 / 10)
        (v_fresh.after (v_fresh.reload env_ok loads_one parse_ok))).calls = [] ∧
    (Volume.driver env_ok loads_one parse_ok (3 / 20)
        (v_fresh.after (v_fresh.reload env_ok loads_one parse_ok))).calls = [] := by
  refine ⟨by norm_num, by norm_num, ?_, ?_⟩
  · exact (C4_no_second_refresh_within_window env_ok loads_one parse_ok v_fresh 0
      (1 / 10) (3 / 20) (by norm_num) (by norm_num)).1
  · exact (C4_no_second_refresh_within_window env_ok loads_one parse_ok v_fresh 0
      (1 / 10) (3 / 20) (by norm_num) (by norm_num)).2.2.2

/-- C5: the claim states that an attribute read after the debounce window
(elapsed time greater than 2/10) triggers exactly one refresh invocation
before returning the value.  Evaluated at the failing input — a handle
with a cached snapshot last refreshed at time 0, read at time 1, elapsed
1 > 2/10 — the read makes zero subprocess invocations and returns no
value: it raises TypeError from the debounce comparison. -/
theorem C5_stale_read_triggers_no_refresh :
    (1 : ℚ) - v_loaded.last_refreshed_time > 2 / 10 ∧
    (Volume.created_at env_ok loads_one parse_ok 1 v_loaded).calls = [] ∧
    (Volume.created_at env_ok loads_one parse_ok 1 v_loaded).result =
      Except.error PyError.typeError := by
  refine ⟨?_, rfl, rfl⟩
  show (1 : ℚ) - datetime_min > 2 / 10
  norm_num [datetime_min]

/-- C6 counterexample: an attribute read on a never-successfully-refreshed
handle does fail, but with TypeError raised by the debounce comparison,
not with the UnavailableError the claim names. -/
theorem C6_never_refreshed_read_counterexample :
    v_fresh.volume_inspect_result = none ∧
    (Volume.created_at env_ok loads_one parse_ok 1 v_fresh).result =
      Except.error PyError.typeError ∧
    PyError.typeError ≠ PyError.unavailableError :=
  ⟨rfl, rfl, by decide⟩

/-- C6 (amended): when `reload()` fails — the subprocess invocation fails,
or the JSON stage fails — the stage's error is raised to the caller and
the handle is left exactly as it was; the cache is either unchanged or
replaced wholesale by a fully parsed object, never partially populated;
and an attribute read on a never-successfully-refreshed handle fails,
though with a TypeError from the debounce comparison rather than an
UnavailableError. -/
theorem C6_reload_failure_preserves_state {J : Type}
    (env : Cmd → Except PyError String)
    (loads : String → Except PyError (List J))
    (parse_obj : J → Except PyError VolumeInspectResult)
    (v : Volume) (e : PyError) (now : ℚ) :
    (env (v.docker_cmd ++ ["volume", "inspect", v.name]) = Except.error e →
      (v.reload env loads parse_obj).result = Except.error e) ∧
    (∀ s, env (v.docker_cmd ++ ["volume", "inspect", v.name]) = Except.ok s →
      loads s = Except.error e →
      (v.reload env loads parse_obj).result = Except.error e) ∧
    (∀ e2, (v.reload env loads parse_obj).result = Except.error e2 →
      v.after (v.reload env loads parse_obj) = v) ∧
    ((v.after (v.reload env loads parse_obj)).volume_inspect_result =
        v.volume_inspect_result ∨
      ∃ j r, parse_obj j = Except.ok r ∧
        (v.reload env loads parse_obj).result =
          Except.ok { v with volume_inspect_result := some r }) ∧
    (v.volume_inspect_result = none →
      (Volume.created_at env loads parse_obj now v).result =
        Except.error PyError.typeError) := by
  refine ⟨?_, ?_, ?_, ?_, fun _ => rfl⟩
  · intro h
    simp [Volume.reload, h]
  · intro s hs hl
    simp [Volume.reload, hs, hl]
  · intro e2 he
    simp [Volume.after, he]
  · cases henv : env (v.docker_cmd ++ ["volume", "inspect", v.name]) with
    | error e1 => left; simp [Volume.after, Volume.reload, henv]
    | ok s =>
      cases hl : loads s with
      | error e1 => left; simp [Volume.after, Volume.reload, henv, hl]
      | ok arr =>
        cases arr with
        | nil => left; simp [Volume.after, Volume.reload, henv, hl]
        | cons j rest =>
          cases hp : parse_obj j with
          | error e1 => left; simp [Volume.after, Volume.reload, henv, hl, hp]
          | ok r =>
            right
            exact ⟨j, r, hp, by simp [Volume.reload, henv, hl, hp]⟩

/-- C6 witness: under a failing subprocess oracle, the reload of a fresh
handle raises InvocationError and the handle is unchanged. -/
theorem C6_reload_failure_preserves_state_witness :
    env_fail (v_fresh.docker_cmd ++ ["volume", "inspect", v_fresh.name]) =
      Except.error PyError.invocationError ∧
    (v_fresh.reload env_fail loads_one parse_ok).result =
      Except.error PyError.invocationError ∧
    v_fresh.after (v_fresh.reload env_fail loads_one parse_ok) = v_fresh :=
  ⟨rfl,
    (C6_reload_failure_preserves_state env_fail loads_one parse_ok v_fresh
      PyError.invocationError 1).1 rfl,
    (C6_reload_failure_preserves_state env_fail loads_one parse_ok v_fresh
      PyError.invocationError 1).2.2.1 PyError.invocationError rfl⟩

/-- C7 counterexample: `prune` called in the single-reference form does
not build any command invocation — its argument is the filters mapping,
so a reference fails the eager argument-type check with TypeError — while
`remove` with a single reference does build the reference-appending
command.  The single-versus-sequence reference equivalence therefore does
not transfer to `prune`. -/
theorem C7_prune_single_reference_counterexample :
    (NetworkCLI.prune (fun _ => Except.ok "") (ClientConfig.mk ["docker"])
        (DictOrRef.ref "a")).calls = [] ∧
    (NetworkCLI.prune (fun _ => Except.ok "") (ClientConfig.mk ["docker"])
        (DictOrRef.ref "a")).result = Except.error PyError.typeError ∧
    (NetworkCLI.remove (fun _ => Except.ok "") (ClientConfig.mk ["docker"])
        (PyListOr.single "a")).calls = [["docker", "network", "remove", "a"]] :=
  ⟨rfl, rfl, rfl⟩

/-- C7 (amended): `remove` called with a single reference builds exactly
the command of the singleton-list call, and `remove` of a list appends the
references in order, because `to_list` wraps a non-list into a singleton
and passes a list through unchanged (likewise for the network `remove`);
`prune`, by contrast, takes a filters mapping rather than references, so
the equivalence does not apply to it. -/
theorem C7_remove_single_list_equivalence (docker_cmd : List String)
    (r : VolumeArg) (xs : List VolumeArg)
    (env : Cmd → Except PyError String) (cfg : ClientConfig) (n : String)
    (d : List (String × String)) :
    VolumeCLI.remove_cmd docker_cmd (PyListOr.single r) =
      VolumeCLI.remove_cmd docker_cmd (PyListOr.list [r]) ∧
    to_list (PyListOr.single r) = [r] ∧
    to_list (PyListOr.list xs) = xs ∧
    VolumeCLI.remove_cmd docker_cmd (PyListOr.list xs) =
      docker_cmd ++ ["volume", "remove"] ++ xs.map VolumeArg.toStr ∧
    (NetworkCLI.remove env cfg (PyListOr.single n)).calls =
      (NetworkCLI.remove env cfg (PyListOr.list [n])).calls ∧
    (NetworkCLI.prune env cfg (DictOrRef.dict d)).calls =
      [add_args_list (cfg.docker_cmd ++ ["network", "prune", "--force"])
        "--filter" (d.map fun kv => kv.1 ++ "=" ++ kv.2)] := by
  refine ⟨rfl, rfl, rfl, ?_, rfl, rfl⟩
  have h := foldl_append_blocks (fun v => [VolumeArg.toStr v]) xs
    (VolumeCLI.make_cli_cmd docker_cmd ++ ["remove"])
  simp only [VolumeCLI.remove_cmd, to_list] at *
  rw [h, join_map_singleton]
  simp [VolumeCLI.make_cli_cmd]

/-- C8: `inspect` maps a single reference to a single handle, and a list
of references to the list of handles obtained by building one handle per
reference in input order (hence of the same length, with the i-th handle
built from the i-th reference); in particular inspecting the list
`["a", "b"]` yields the two handles for "a" and "b" in that order. -/
theorem C8_inspect_overload (cfg : ClientConfig) (x : String)
    (xs : List String) :
    NetworkCLI.inspect cfg (PyListOr.single x) =
      NetworkOrList.one (Network.mk cfg x false) ∧
    NetworkCLI.inspect cfg (PyListOr.list xs) =
      NetworkOrList.many (xs.map fun reference => Network.mk cfg reference false) ∧
    (xs.map fun reference => Network.mk cfg reference false).length = xs.length ∧
    NetworkCLI.inspect cfg (PyListOr.list ["a", "b"]) =
      NetworkOrList.many
        [Network.mk cfg "a" false, Network.mk cfg "b" false] := by
  refine ⟨rfl, rfl, ?_, rfl⟩
  simp

/-- C9 counterexample: a call to `inspect` performs no subprocess
invocation at all — it builds the handle locally from the reference —
contradicting the claim that every call to `inspect` invokes the external
engine. -/
theorem C9_inspect_makes_no_invocation :
    (NetworkCLI.inspectT (ClientConfig.mk ["docker"])
        (PyListOr.single "a")).calls = [] ∧
    (NetworkCLI.inspectT (ClientConfig.mk ["docker"])
        (PyListOr.single "a")).result =
      Except.ok (NetworkOrList.one
        (Network.mk (ClientConfig.mk ["docker"]) "a" false)) :=
  ⟨rfl, rfl⟩

/-- C9 (amended): `create`, `list`, `remove` and `prune` each build their
flag sequence deterministically from their typed inputs and invoke the
subprocess exactly once; `list` maps each output line to an immutable-id
handle and `create` wraps the output id into a handle; `inspect`, by
contrast, performs no subprocess invocation and builds handles directly
from the given references. -/
theorem C9_collection_operations (env : Cmd → Except PyError String)
    (cfg : ClientConfig) (name : String) (attachable : Bool)
    (driver gateway subnet : Option String) (options : List String)
    (filters : List (String × String)) (ns : PyListOr String)
    (x : PyListOr String) :
    (NetworkCLI.create env cfg name attachable driver gateway subnet
        options).calls.length = 1 ∧
    (NetworkCLI.list env cfg (DictOrRef.dict filters)).calls.length = 1 ∧
    (NetworkCLI.remove env cfg ns).calls.length = 1 ∧
    (NetworkCLI.prune env cfg (DictOrRef.dict filters)).calls.length = 1 ∧
    (NetworkCLI.inspectT cfg x).calls = [] ∧
    (NetworkCLI.list env cfg (DictOrRef.dict filters)).result =
      Except.map (fun out => (splitlines out).map fun i => Network.mk cfg i true)
        (env (add_args_list
          (cfg.docker_cmd ++ ["network", "list", "--no-trunc", "--quiet"])
          "--filter" (filters.map fun kv => kv.1 ++ "=" ++ kv.2))) ∧
    (NetworkCLI.create env cfg name attachable driver gateway subnet
        options).result =
      Except.map (fun out => Network.mk cfg out true)
        (env ((add_args_list (add_simple_arg (add_simple_arg (add_simple_arg
            (add_flag (cfg.docker_cmd ++ ["network", "create"])
              "--attachable" attachable)
            "--driver" driver) "--gateway" gateway) "--subnet" subnet)
          "--opt" options) ++ [name])) := by
  refine ⟨rfl, rfl, rfl, rfl, rfl, ?_, ?_⟩
  · rcases henv : env (add_args_list
        (cfg.docker_cmd ++ ["network", "list", "--no-trunc", "--quiet"])
        "--filter" (filters.map fun kv => kv.1 ++ "=" ++ kv.2)) with e1 | out <;>
      simp [NetworkCLI.list, format_dict_for_cli, henv, Except.map]
  · rcases henv : env ((add_args_list (add_simple_arg (add_simple_arg
        (add_simple_arg (add_flag (cfg.docker_cmd ++ ["network", "create"])
          "--attachable" attachable)
        "--driver" driver) "--gateway" gateway) "--subnet" subnet)
      "--opt" options) ++ [name]) with e1 | out <;>
      simp [NetworkCLI.create, henv, Except.map]

/-- C10: each key/value entry of the labels mapping contributes one
consecutive `--label key=value` pair to the volume create command; in
particular a create call with labels `{"env": "prod"}` yields a command
containing the consecutive pair `--label env=prod`. -/
theorem C10_create_label_flags (docker_cmd : List String)
    (volume_name driver : Option String)
    (labels options : List (String × String)) (k v : String)
    (h : (k, v) ∈ labels) :
    ∃ u w, VolumeCLI.create_cmd docker_cmd volume_name driver labels options =
      u ++ ["--label", k ++ "=" ++ v] ++ w := by
  rcases mem_map_join_decomp
    (fun kv : String × String => ["--label", kv.1 ++ "=" ++ kv.2]) (k, v)
    labels h with ⟨u0, w0, hw⟩
  refine ⟨create_base docker_cmd volume_name driver ++ u0,
    w0 ++ opt_blocks options, ?_⟩
  rw [create_cmd_eq]
  unfold label_blocks
  rw [hw]
  simp [List.append_assoc]

/-- C10 witness: with labels `{"env": "prod"}` the membership hypothesis
holds and the created command contains the consecutive pair
`--label env=prod`. -/
theorem C10_create_label_flags_witness :
    ("env", "prod") ∈ [("env", "prod")] ∧
    ∃ u w, VolumeCLI.create_cmd ["docker"] (some "myvol") none
        [("env", "prod")] [] =
      u ++ ["--label", "env" ++ "=" ++ "prod"] ++ w :=
  ⟨by simp,
    C10_create_label_flags ["docker"] (some "myvol") none
      [("env", "prod")] [] "env" "prod" (by simp)⟩
